import Mathlib

/-!
Verification of the label-rendering core of `app.py` (Batch-Labels).

The embedding models the two rendering functions `create_label_pdf` and
`draw_single_label`. Real (Python float) arithmetic is modelled by `ℚ`;
font sizes are integer points (`ℕ` after Python's `max` clamp, with
Python `int()` truncation modelled exactly by `pyInt`). The ReportLab
canvas is modelled at the level of its drawn content: `setFont` only
mutates canvas state, so each `drawString` is recorded as a text
operation carrying the font active at that moment, and `rect` is
recorded with its coordinates and its stroke/fill flags (ReportLab's
defaults are stroke on, fill off). A rendered page is its physical
size together with the list of draw operations; ReportLab's
serialisation to bytes is a deterministic function of these, so
equality of pages stands for equality of output bytes. The call
`datetime.now()` is modelled by an explicit `Datetime` argument, and
the font-metrics call `canvas.stringWidth(text, "Helvetica-Bold", size)`
by an explicit metrics argument `sw : String → ℕ → ℚ`.
-/

/-- A timestamp as returned by Python's `datetime.now()`: a calendar
date plus a time of day. -/
structure Datetime where
  year : ℕ
  month : ℕ
  day : ℕ
  hour : ℕ
  minute : ℕ
  second : ℕ
deriving DecidableEq, Repr

/-- Zero-padded two-digit rendering of a field, as `strftime` does for
`%d` and `%m`. -/
def pad2 (n : ℕ) : String :=
  if n < 10 then "0" ++ toString n else toString n

/-- `datetime.now().strftime("%d/%m/%Y")` from `draw_single_label`
(app.py line 57): only the calendar date of the timestamp is used. -/
def formatDDMMYYYY (d : Datetime) : String :=
  pad2 d.day ++ "/" ++ pad2 d.month ++ "/" ++ toString d.year

/-- Python `int()` on a real number: truncation toward zero. -/
def pyInt (q : ℚ) : ℤ :=
  if 0 ≤ q then ⌊q⌋ else ⌈q⌉

/-- `mm_to_pt = 2.834645669` (app.py line 22), exactly. -/
def mmToPt : ℚ := 2834645669 / 1000000000

/-- `base_width = 48 * 2.834645669` (app.py line 61): 48mm in points,
the scale-factor denominator. -/
def baseWidth : ℚ := 48 * mmToPt

/-- `product_font_size = max(12, int(16 * scale_factor))` with
`scale_factor = width / base_width` (app.py lines 62, 65). Python's
`max` of two ints becomes `max` on `ℕ` via `Int.toNat`, which agrees
with Python because a negative `int(...)` loses to 12 either way. -/
def productFontSize (w : ℚ) : ℕ :=
  max 12 (pyInt (16 * (w / baseWidth))).toNat

/-- `date_font_size = max(8, int(12 * scale_factor))` (app.py line 67). -/
def dateFontSize (w : ℚ) : ℕ :=
  max 8 (pyInt (12 * (w / baseWidth))).toNat

/-- The shrink-to-fit loop of app.py lines 86-89:
`while text_width > available_width and product_font_size > 8:
product_font_size -= 1; text_width = stringWidth(...)`.
`sw fs` is the measured width of the (fixed) text at font size `fs`;
the result is the final font size when the loop exits. -/
def shrinkToFit (sw : ℕ → ℚ) (avail : ℚ) : ℕ → ℕ
  | 0 => 0
  | fs + 1 =>
    if avail < sw (fs + 1) ∧ 8 < fs + 1 then shrinkToFit sw avail fs
    else fs + 1

/-- Number of iterations the shrink-to-fit loop performs. -/
def shrinkSteps (sw : ℕ → ℚ) (avail : ℚ) : ℕ → ℕ
  | 0 => 0
  | fs + 1 =>
    if avail < sw (fs + 1) ∧ 8 < fs + 1 then shrinkSteps sw avail fs + 1
    else 0

/-- The final name font size drawn by `draw_single_label`: the initial
`product_font_size` after the shrink loop against
`available_width = width * 0.9` (app.py line 83). -/
def finalNameFontSize (sw : String → ℕ → ℚ) (name : String) (w : ℚ) : ℕ :=
  shrinkToFit (sw name) (w * (9 / 10)) (productFontSize w)

/-- `x_offset + (width - text_width) / 2` (app.py lines 92, 100): the
horizontal position of a centered text run. -/
def centeredX (xo w tw : ℚ) : ℚ :=
  xo + (w - tw) / 2

/-- `label_padding = height * 0.1` (app.py line 70). -/
def label_padding (h : ℚ) : ℚ :=
  h * (1 / 10)

/-- `usable_height = height - (2 * label_padding)` (app.py line 71). -/
def usable_height (h : ℚ) : ℚ :=
  h - 2 * label_padding h

/-- `product_name_y = label_padding + (usable_height * 0.7)`
(app.py line 74). -/
def product_name_y (h : ℚ) : ℚ :=
  label_padding h + usable_height h * (7 / 10)

/-- `date_y = label_padding + (usable_height * 0.25)` (app.py line 76). -/
def date_y (h : ℚ) : ℚ :=
  label_padding h + usable_height h * (1 / 4)

/-- One drawn operation on the canvas. `text` records the font active
when `drawString` ran; `rect` records ReportLab's stroke/fill flags. -/
inductive DrawOp where
  | text (font : String) (size : ℕ) (x y : ℚ) (s : String)
  | rect (x y w h : ℚ) (stroke fill : Bool)
deriving DecidableEq, Repr

/-- Whether an operation is a border rectangle. -/
def isRect : DrawOp → Bool
  | DrawOp.rect _ _ _ _ _ _ => true
  | _ => false

/-- Shift an operation right by `dx`. -/
def translateX (dx : ℚ) : DrawOp → DrawOp
  | DrawOp.text f sz x y s => DrawOp.text f sz (x + dx) y s
  | DrawOp.rect x y w h st fl => DrawOp.rect (x + dx) y w h st fl

/-- A rendered page: physical size in points plus drawn content, in
drawing order. -/
structure Page where
  width : ℚ
  height : ℚ
  ops : List DrawOp
deriving DecidableEq, Repr

/-- `draw_single_label(canvas, product_name, width, height, x_offset)`
(app.py lines 45-106). `now` stands for `datetime.now()` and `sw` for
`canvas.stringWidth(·, "Helvetica-Bold", ·)`. Emits the product name
at its post-shrink font size, the date, and the border rectangle, in
the order the code draws them. -/
def draw_single_label (sw : String → ℕ → ℚ) (now : Datetime)
    (product_name : String) (w h xo : ℚ) : List DrawOp :=
  let current_date := formatDDMMYYYY now
  let pfs := finalNameFontSize sw product_name w
  let dfs := dateFontSize w
  let border_padding : ℚ := 2
  [ DrawOp.text "Helvetica-Bold" pfs
      (centeredX xo w (sw product_name pfs)) (product_name_y h) product_name,
    DrawOp.text "Helvetica-Bold" dfs
      (centeredX xo w (sw current_date dfs)) (date_y h) current_date,
    DrawOp.rect (xo + border_padding) border_padding
      (w - 2 * border_padding) (h - 2 * border_padding) true false ]

/-- `create_label_pdf(product_name, label_size)` (app.py lines 8-43):
`if label_size == "48x25mm"` draw one 48x25mm cell, `else` draw two
48mm-wide cells side by side on a 96x25mm page. -/
def create_label_pdf (sw : String → ℕ → ℚ) (now : Datetime)
    (product_name label_size : String) : Page :=
  if label_size = "48x25mm" then
    Page.mk (48 * mmToPt) (25 * mmToPt)
      (draw_single_label sw now product_name (48 * mmToPt) (25 * mmToPt) 0)
  else
    Page.mk (96 * mmToPt) (25 * mmToPt)
      (draw_single_label sw now product_name (48 * mmToPt) (25 * mmToPt) 0
        ++ draw_single_label sw now product_name (48 * mmToPt) (25 * mmToPt)
            (48 * mmToPt))

/-- A concrete metrics provider used by closed witnesses: width grows
linearly with text length and font size. -/
def swEx (t : String) (fs : ℕ) : ℚ :=
  (t.length * fs : ℕ)

/-- A concrete timestamp used by closed witnesses. -/
def dEx : Datetime :=
  Datetime.mk 2025 10 12 9 30 0

/-- Modelled from the spec for comparison with `productFontSize` (the
spec says: name font size = max(12, floor(16 × scaleFactor)), floor to
integer points). -/
def specNameFontSize (w : ℚ) : ℤ :=
  max 12 ⌊16 * (w / baseWidth)⌋

/-- Modelled from the spec for comparison with `dateFontSize` (the
spec says: date font size = max(8, floor(12 × scaleFactor))). -/
def specDateFontSize (w : ℚ) : ℤ :=
  max 8 ⌊12 * (w / baseWidth)⌋

/-! ### Helper lemmas about the shrink-to-fit loop -/

/-- The loop only ever lowers the font size. -/
lemma shrinkToFit_le (sw : ℕ → ℚ) (avail : ℚ) :
    ∀ fs, shrinkToFit sw avail fs ≤ fs := by
  intro fs
  induction fs with
  | zero => simp [shrinkToFit]
  | succ n ih =>
    rw [shrinkToFit]
    split
    · exact le_trans ih (by omega)
    · exact le_refl _

/-- Starting at or above the floor, the loop never goes below 8. -/
lemma shrinkToFit_ge8 (sw : ℕ → ℚ) (avail : ℚ) :
    ∀ fs, 8 ≤ fs → 8 ≤ shrinkToFit sw avail fs := by
  intro fs
  induction fs with
  | zero => intro h; omega
  | succ n ih =>
    intro _
    rw [shrinkToFit]
    split
    · rename_i hc
      exact ih (by omega)
    · omega

/-- On exit, either the text fits in the available width or the size
has reached 8 or below. -/
lemma shrinkToFit_exit (sw : ℕ → ℚ) (avail : ℚ) :
    ∀ fs, sw (shrinkToFit sw avail fs) ≤ avail ∨ shrinkToFit sw avail fs ≤ 8 := by
  intro fs
  induction fs with
  | zero => right; simp [shrinkToFit]
  | succ n ih =>
    rw [shrinkToFit]
    split
    · exact ih
    · rename_i hc
      rcases not_and_or.mp hc with h | h
      · left; exact le_of_not_lt h
      · right; omega

/-- Pointwise wider text never yields a larger final font size. -/
lemma shrinkToFit_anti (sw₁ sw₂ : ℕ → ℚ) (avail : ℚ)
    (hsw : ∀ s, sw₁ s ≤ sw₂ s) :
    ∀ fs, shrinkToFit sw₂ avail fs ≤ shrinkToFit sw₁ avail fs := by
  intro fs
  induction fs with
  | zero => simp [shrinkToFit]
  | succ n ih =>
    by_cases h2 : avail < sw₂ (n + 1) ∧ 8 < n + 1
    · rw [shrinkToFit, if_pos h2]
      by_cases h1 : avail < sw₁ (n + 1) ∧ 8 < n + 1
      · rw [shrinkToFit, if_pos h1]
        exact ih
      · rw [shrinkToFit, if_neg h1]
        exact le_trans (shrinkToFit_le sw₂ avail n) (by omega)
    · rw [shrinkToFit, if_neg h2]
      have h1 : ¬(avail < sw₁ (n + 1) ∧ 8 < n + 1) := by
        rintro ⟨ha, hb⟩
        exact h2 ⟨lt_of_lt_of_le ha (hsw (n + 1)), hb⟩
      rw [shrinkToFit, if_neg h1]

/-- The final size is the initial size minus the number of one-point
decrements: each iteration lowers the size by exactly one. -/
lemma shrinkToFit_eq_sub (sw : ℕ → ℚ) (avail : ℚ) :
    ∀ fs, shrinkToFit sw avail fs = fs - shrinkSteps sw avail fs := by
  intro fs
  induction fs with
  | zero => simp [shrinkToFit, shrinkSteps]
  | succ n ih =>
    rw [shrinkToFit, shrinkSteps]
    split
    · rw [ih]; omega
    · omega

/-- The loop runs at most `fs - 8` times. -/
lemma shrinkSteps_le (sw : ℕ → ℚ) (avail : ℚ) :
    ∀ fs, shrinkSteps sw avail fs ≤ fs - 8 := by
  intro fs
  induction fs with
  | zero => simp [shrinkSteps]
  | succ n ih =>
    rw [shrinkSteps]
    split
    · rename_i hc
      omega
    · omega

/-- At the 48mm cell width used by both supported sizes the scale
factor is 1, so the initial name font size is 16. -/
lemma productFontSize_W0 : productFontSize (48 * mmToPt) = 16 := by
  have hb : (48 * mmToPt) / baseWidth = 1 := by
    rw [baseWidth]
    exact div_self (by norm_num [mmToPt])
  rw [productFontSize, hb]
  norm_num [pyInt]
  decide

/-- Shifting the cell offset shifts every drawn operation by the same
amount: a cell at offset `xo` is the cell at offset 0 translated. -/
lemma draw_single_label_translate (sw : String → ℕ → ℚ) (now : Datetime)
    (name : String) (w h xo : ℚ) :
    draw_single_label sw now name w h xo =
      (draw_single_label sw now name w h 0).map (translateX xo) := by
  simp [draw_single_label, translateX, centeredX]
  constructor
  · ring
  · constructor
    · ring
    · ring

/-! ### Claims -/

/-- Claim C2: for every `label_size` other than exactly "48x25mm" —
malformed or unsupported tokens included — `create_label_pdf` takes
the two-label branch and returns a 96x25mm page with two 48mm-wide
cells at offsets 0 and 48mm; no validation of `label_size` happens
anywhere in the render path. -/
theorem claim_C2 (sw : String → ℕ → ℚ) (now : Datetime)
    (name size : String) (hsize : size ≠ "48x25mm") :
    create_label_pdf sw now name size =
      Page.mk (96 * mmToPt) (25 * mmToPt)
        (draw_single_label sw now name (48 * mmToPt) (25 * mmToPt) 0
          ++ draw_single_label sw now name (48 * mmToPt) (25 * mmToPt)
              (48 * mmToPt)) := by
  rw [create_label_pdf, if_neg hsize]

/-- Witness for C2 at the malformed token "96x25": the hypothesis is
discharged by decision and the two-cell page is produced. -/
theorem claim_C2_witness :
    ("96x25" : String) ≠ "48x25mm" ∧
      create_label_pdf swEx dEx "Milk 1L" "96x25" =
        Page.mk (96 * mmToPt) (25 * mmToPt)
          (draw_single_label swEx dEx "Milk 1L" (48 * mmToPt) (25 * mmToPt) 0
            ++ draw_single_label swEx dEx "Milk 1L" (48 * mmToPt) (25 * mmToPt)
                (48 * mmToPt)) :=
  ⟨by decide, claim_C2 swEx dEx "Milk 1L" "96x25" (by decide)⟩

/-- Counterexample to claim C1 as stated: the size token "7x7mm" is
neither supported nominal size, yet the render is not rejected —
geometry is computed (a 96x25mm page) and drawing occurs (six drawn
operations, two full cells). -/
theorem claim_C1_counterexample :
    (create_label_pdf swEx dEx "Milk 1L" "7x7mm").width = 96 * mmToPt ∧
      (create_label_pdf swEx dEx "Milk 1L" "7x7mm").ops.length = 6 := by
  constructor
  · rw [create_label_pdf, if_neg (by decide : ("7x7mm" : String) ≠ "48x25mm")]
  · rw [create_label_pdf, if_neg (by decide : ("7x7mm" : String) ≠ "48x25mm")]
    simp [draw_single_label]

/-- Claim C1 amended: requested sizes that are not one of the two
supported nominal sizes are NOT rejected — there is no InvalidSize
error path; any such request silently takes the two-label branch,
computing 96x25mm geometry and drawing a full double page. -/
theorem claim_C1_amended (sw : String → ℕ → ℚ) (now : Datetime)
    (name size : String) (h1 : size ≠ "48x25mm") (h2 : size ≠ "96x25mm") :
    (create_label_pdf sw now name size).width = 96 * mmToPt ∧
      (create_label_pdf sw now name size).ops ≠ [] := by
  rw [create_label_pdf, if_neg h1]
  exact ⟨rfl, by simp [draw_single_label]⟩

/-- Witness for the amended C1 at the invalid token "banana". -/
theorem claim_C1_witness :
    ("banana" : String) ≠ "48x25mm" ∧ ("banana" : String) ≠ "96x25mm" ∧
      ((create_label_pdf swEx dEx "Milk 1L" "banana").width = 96 * mmToPt ∧
        (create_label_pdf swEx dEx "Milk 1L" "banana").ops ≠ []) :=
  ⟨by decide, by decide,
    claim_C1_amended swEx dEx "Milk 1L" "banana" (by decide) (by decide)⟩

/-- Claim C3: the shrink-to-fit loop decrements the font size by one
point and re-measures while the measured width exceeds the available
width and the size exceeds 8 (first conjunct: the loop equation); the
loop stops at size 8 even if the text still overflows, so from any
start at or above 8 the final size is at least 8 and on exit either
the text fits or the size is exactly 8 (second conjunct); overflow is
never an error: the name is always drawn, at its final post-shrink
size (third conjunct). -/
theorem claim_C3 :
    (∀ (sw : ℕ → ℚ) (avail : ℚ) (fs : ℕ),
        shrinkToFit sw avail fs =
          if avail < sw fs ∧ 8 < fs then shrinkToFit sw avail (fs - 1)
          else fs) ∧
    (∀ (sw : ℕ → ℚ) (avail : ℚ) (fs : ℕ), 8 ≤ fs →
        8 ≤ shrinkToFit sw avail fs ∧
          (sw (shrinkToFit sw avail fs) ≤ avail ∨
            shrinkToFit sw avail fs = 8)) ∧
    (∀ (sw : String → ℕ → ℚ) (now : Datetime) (name : String) (w h xo : ℚ),
        DrawOp.text "Helvetica-Bold" (finalNameFontSize sw name w)
            (centeredX xo w (sw name (finalNameFontSize sw name w)))
            (product_name_y h) name
          ∈ draw_single_label sw now name w h xo) := by
  refine ⟨?_, ?_, ?_⟩
  · intro sw avail fs
    cases fs with
    | zero => simp [shrinkToFit]
    | succ n => rfl
  · intro sw avail fs h8
    have hge := shrinkToFit_ge8 sw avail fs h8
    refine ⟨hge, ?_⟩
    rcases shrinkToFit_exit sw avail fs with h | h
    · exact Or.inl h
    · exact Or.inr (le_antisymm h hge)
  · intro sw now name w h xo
    simp [draw_single_label]

/-- Witness for C3: a long name in a 48mm cell shrinks all the way to
the floor of 8 and is still drawn (overflow tolerated). -/
theorem claim_C3_witness :
    (8 : ℕ) ≤ 16 ∧
      (8 ≤ shrinkToFit (swEx "Extra Strong Dark Roast Coffee") 43 16 ∧
        (swEx "Extra Strong Dark Roast Coffee"
            (shrinkToFit (swEx "Extra Strong Dark Roast Coffee") 43 16) ≤ 43 ∨
          shrinkToFit (swEx "Extra Strong Dark Roast Coffee") 43 16 = 8)) :=
  ⟨by decide,
    claim_C3.2.1 (swEx "Extra Strong Dark Roast Coffee") 43 16 (by decide)⟩

/-- Claim C4: rendering is deterministic — the output is a pure
function of the product name, the size token and the calendar date of
the ambient timestamp: two renders whose timestamps agree on day,
month and year (time of day free to differ) produce identical pages,
hence identical output bytes. -/
theorem claim_C4 (sw : String → ℕ → ℚ) (name size : String)
    (d₁ d₂ : Datetime) (hday : d₁.day = d₂.day)
    (hmonth : d₁.month = d₂.month) (hyear : d₁.year = d₂.year) :
    create_label_pdf sw d₁ name size = create_label_pdf sw d₂ name size := by
  have hf : formatDDMMYYYY d₁ = formatDDMMYYYY d₂ := by
    rw [formatDDMMYYYY, formatDDMMYYYY, hday, hmonth, hyear]
  rw [create_label_pdf, create_label_pdf]
  simp [draw_single_label, hf]

/-- Witness for C4: same date, different times of day, identical
pages. -/
theorem claim_C4_witness :
    dEx.day = (Datetime.mk 2025 10 12 17 45 3).day ∧
      dEx.month = (Datetime.mk 2025 10 12 17 45 3).month ∧
      dEx.year = (Datetime.mk 2025 10 12 17 45 3).year ∧
      create_label_pdf swEx dEx "Milk 1L" "48x25mm" =
        create_label_pdf swEx (Datetime.mk 2025 10 12 17 45 3)
          "Milk 1L" "48x25mm" :=
  ⟨rfl, rfl, rfl,
    claim_C4 swEx "Milk 1L" "48x25mm" dEx (Datetime.mk 2025 10 12 17 45 3)
      rfl rfl rfl⟩

/-- Claim C5: for every positive cell width, the code's font sizes
(Python `int()` truncation) agree with the spec formulas
max(12, floor(16·scaleFactor)) and max(8, floor(12·scaleFactor)). -/
theorem claim_C5 (w : ℚ) (hw : 0 < w) :
    (productFontSize w : ℤ) = specNameFontSize w ∧
      (dateFontSize w : ℤ) = specDateFontSize w := by
  have hb : 0 < baseWidth := by norm_num [baseWidth, mmToPt]
  have h16 : 0 ≤ 16 * (w / baseWidth) := by positivity
  have h12 : 0 ≤ 12 * (w / baseWidth) := by positivity
  constructor
  · rw [productFontSize, specNameFontSize, pyInt, if_pos h16]
    push_cast [Int.toNat_of_nonneg (Int.floor_nonneg.mpr h16)]
    rfl
  · rw [dateFontSize, specDateFontSize, pyInt, if_pos h12]
    push_cast [Int.toNat_of_nonneg (Int.floor_nonneg.mpr h12)]
    rfl

/-- Witness for C5 at the 48mm cell width. -/
theorem claim_C5_witness :
    (0 : ℚ) < 48 * mmToPt ∧
      ((productFontSize (48 * mmToPt) : ℤ) = specNameFontSize (48 * mmToPt) ∧
        (dateFontSize (48 * mmToPt) : ℤ) = specDateFontSize (48 * mmToPt)) :=
  ⟨by norm_num [mmToPt], claim_C5 (48 * mmToPt) (by norm_num [mmToPt])⟩

/-- Claim C6: a "96x25mm" render produces a page of width 2×W0 and
height H0 whose drawn content is one cell's operations followed by the
same operations translated right by exactly one cell width
(48mm = 48 × mmToPt points); the two cells are otherwise identical in
text, date, font sizes and positions relative to each cell. -/
theorem claim_C6 (sw : String → ℕ → ℚ) (now : Datetime) (name : String) :
    create_label_pdf sw now name "96x25mm" =
      Page.mk (2 * (48 * mmToPt)) (25 * mmToPt)
        (draw_single_label sw now name (48 * mmToPt) (25 * mmToPt) 0
          ++ (draw_single_label sw now name (48 * mmToPt) (25 * mmToPt) 0).map
              (translateX (48 * mmToPt))) := by
  rw [create_label_pdf, if_neg (by decide : ("96x25mm" : String) ≠ "48x25mm")]
  rw [← draw_single_label_translate sw now name (48 * mmToPt) (25 * mmToPt)
        (48 * mmToPt)]
  have h2 : (96 : ℚ) * mmToPt = 2 * (48 * mmToPt) := by ring
  rw [h2]

/-- Claim C8: both text runs (name and date) are drawn at horizontal
position cellXOffset + (cellWidth − measuredTextWidth) / 2, measured
at the final post-shrink font size (first two conjuncts), and for any
such centered run the gap from the cell's left edge to the text's left
edge equals the gap from the text's right edge to the cell's right
edge, exactly (third conjunct). -/
theorem claim_C8 (sw : String → ℕ → ℚ) (now : Datetime) (name : String)
    (w h xo : ℚ) :
    (DrawOp.text "Helvetica-Bold" (finalNameFontSize sw name w)
        (xo + (w - sw name (finalNameFontSize sw name w)) / 2)
        (product_name_y h) name
      ∈ draw_single_label sw now name w h xo) ∧
    (DrawOp.text "Helvetica-Bold" (dateFontSize w)
        (xo + (w - sw (formatDDMMYYYY now) (dateFontSize w)) / 2)
        (date_y h) (formatDDMMYYYY now)
      ∈ draw_single_label sw now name w h xo) ∧
    (∀ tw : ℚ, centeredX xo w tw - xo
        = (xo + w) - (centeredX xo w tw + tw)) := by
  refine ⟨?_, ?_, ?_⟩
  · simp [draw_single_label, centeredX]
  · simp [draw_single_label, centeredX]
  · intro tw
    rw [centeredX]
    ring

/-- Claim C9: each cell's drawn operations contain exactly one
rectangle, an unfilled stroked outline inset by 2 points from the
cell's edges (at x = cellXOffset + 2, y = 2, width − 4 by height − 4);
on a "96x25mm" page this yields two separately bordered cells. -/
theorem claim_C9 (sw : String → ℕ → ℚ) (now : Datetime) (name : String)
    (w h xo : ℚ) :
    (draw_single_label sw now name w h xo).filter isRect =
        [DrawOp.rect (xo + 2) 2 (w - 4) (h - 4) true false] ∧
      (create_label_pdf sw now name "96x25mm").ops.filter isRect =
        [DrawOp.rect 2 2 (48 * mmToPt - 4) (25 * mmToPt - 4) true false,
          DrawOp.rect (48 * mmToPt + 2) 2 (48 * mmToPt - 4)
            (25 * mmToPt - 4) true false] := by
  have hcell : ∀ xo₀ : ℚ, (draw_single_label sw now name w h xo₀).filter isRect
      = [DrawOp.rect (xo₀ + 2) 2 (w - 4) (h - 4) true false] := by
    intro xo₀
    simp [draw_single_label, isRect]
    norm_num
  refine ⟨hcell xo, ?_⟩
  rw [create_label_pdf, if_neg (by decide : ("96x25mm" : String) ≠ "48x25mm")]
  have hcell2 : ∀ xo₀ : ℚ,
      (draw_single_label sw now name (48 * mmToPt) (25 * mmToPt) xo₀).filter
          isRect
        = [DrawOp.rect (xo₀ + 2) 2 (48 * mmToPt - 4) (25 * mmToPt - 4)
            true false] := by
    intro xo₀
    simp [draw_single_label, isRect]
    norm_num
  simp only [List.filter_append, hcell2]
  norm_num

/-- Claim C7: with the cell width held fixed, if the metrics provider
measures the longer text at least as wide as the shorter one at every
font size, then the final name font size for the longer text is at
most that for the shorter text; and for every input it never drops
below 8. -/
theorem claim_C7 (sw : String → ℕ → ℚ) (t₁ t₂ : String) (w : ℚ)
    (hmono : ∀ fs, sw t₁ fs ≤ sw t₂ fs) :
    finalNameFontSize sw t₂ w ≤ finalNameFontSize sw t₁ w ∧
      8 ≤ finalNameFontSize sw t₂ w := by
  constructor
  · exact shrinkToFit_anti (sw t₁) (sw t₂) (w * (9 / 10)) hmono
      (productFontSize w)
  · exact shrinkToFit_ge8 (sw t₂) (w * (9 / 10)) (productFontSize w)
      (le_trans (by omega) (Nat.le_max_left 12 _))

/-- Witness for C7: extending "Milk" to a much longer name in a 48mm
cell can only lower (here: strictly lowers) the final font size, which
stays at or above 8. -/
theorem claim_C7_witness :
    finalNameFontSize swEx "Extra Strong Dark Roast Ground Coffee"
        (48 * mmToPt)
      ≤ finalNameFontSize swEx "Milk" (48 * mmToPt) ∧
      8 ≤ finalNameFontSize swEx "Extra Strong Dark Roast Ground Coffee"
          (48 * mmToPt) :=
  claim_C7 swEx "Milk" "Extra Strong Dark Roast Ground Coffee"
    (48 * mmToPt)
    (fun fs => by
      have hlen : ("Milk".length : ℕ) * fs
          ≤ "Extra Strong Dark Roast Ground Coffee".length * fs :=
        Nat.mul_le_mul_right fs (by decide)
      rw [swEx, swEx]
      exact_mod_cast hlen)

/-- Claim C10: the shrink loop terminates for every metrics provider,
available width and start size — the final size is the start size
minus the iteration count (each iteration decrements by exactly one),
and the iteration count is at most start − 8; at the 48mm cells of
both supported sizes the initial name font size is 16, so the loop
runs at most 8 iterations. -/
theorem claim_C10 :
    (∀ (sw : ℕ → ℚ) (avail : ℚ) (fs : ℕ),
        shrinkToFit sw avail fs = fs - shrinkSteps sw avail fs ∧
          shrinkSteps sw avail fs ≤ fs - 8) ∧
    (∀ (sw : ℕ → ℚ) (avail : ℚ),
        shrinkSteps sw avail (productFontSize (48 * mmToPt)) ≤ 8) := by
  constructor
  · intro sw avail fs
    exact ⟨shrinkToFit_eq_sub sw avail fs, shrinkSteps_le sw avail fs⟩
  · intro sw avail
    rw [productFontSize_W0]
    exact le_trans (shrinkSteps_le sw avail 16) (by omega)
